import Mathlib

/-!
Shallow embedding of `promptify/prompter/nlp_prompter.py` (class `Prompter`):
the prompt-construction and dispatch pipeline.  Python values that template
variables can take are modelled by `Val`; Python dicts keyed by strings are
association lists with first-match lookup and insertion-order preserving
update, matching `dict.get`, `in`, `dict.update` and item assignment.
External collaborators that the source file imports but whose code is not part
of the sources (`PromptCache`, `TemplateLoader`, `ConversationLogger`,
`create_message`, the model client) are modelled from the spec, each marked in
its doc comment.
-/

/-- A Python value bound to a template variable.  `vnone` is Python `None`. -/
inductive Val where
  | vnone : Val
  | vstr (s : String) : Val
  | vint (n : Int) : Val
deriving DecidableEq, Repr

/-- A Python dict from variable names to values, as an association list in
insertion order; lookup takes the first match. -/
abbrev Dict := List (String × Val)

/-- `d.get k` of a Python dict: `None`-free variant returning an option. -/
def dictGet (d : Dict) (k : String) : Option Val :=
  (d.find? (fun p => p.1 == k)).map (fun p => p.2)

/-- `k in d` of a Python dict. -/
def dictContains (d : Dict) (k : String) : Bool :=
  d.any (fun p => p.1 == k)

/-- Item assignment `d[k] = v` of a Python dict: overwrite in place if the key
exists, else append, preserving insertion order. -/
def dictSet (d : Dict) (k : String) (v : Val) : Dict :=
  if d.any (fun p => p.1 == k) then
    d.map (fun p => if p.1 == k then (k, v) else p)
  else
    d ++ [(k, v)]

/-- `d.update(other)` of a Python dict: every key of `other` is written into
`d`, overwriting existing values. -/
def dictUpdate (d other : Dict) : Dict :=
  other.foldl (fun acc p => dictSet acc p.1 p.2) d

/-- Modelled from the spec: section 4.1 Template Registry (the source file
imports `TemplateLoader`, whose code is not among the sources).  A template
as the registry resolves it for one identifier: the identifier, whether the
identifier resolves at all (`load_template` at line 144 raises
`TemplateNotFoundError` otherwise, spec section 4.1), the variable names
obtained by static introspection, and a renderable body — a function from a
full variable binding to the rendered string that may itself fail, since
rendering a malformed body raises `TemplateRenderError` (spec sections 4.4
and 7).  The `environment` flag mirrors the `loader["environment"]` value
that `generate_prompt` branches on: templates resolved through a Jinja
environment have it set, and only then is variable introspection
available. -/
structure Template where
  name : String
  found : Bool
  environment : Bool
  variable_names : List String
  render : Dict → Except Unit String

/-- The configuration state of a `Prompter` instance that `generate_prompt`
and `fit` read (fields set in `Prompter.__init__`). -/
structure Prompter where
  allowed_missing_variables : List String
  default_variable_values : Dict
  max_completion_length : Nat
  cache_prompt : Bool

/-- `Prompter.__init__`: the effective allowed-missing list is the fixed
baseline `["examples", "description", "output_format"]` extended by the
caller argument (`None` becomes the empty extension), and the defaults
mapping is the caller argument or empty.  `None` arguments are `Option.none`
here; Python `x or []` on a list argument also maps `[]` to `[]`. -/
def Prompter.init (allowed_missing_variables : Option (List String))
    (default_variable_values : Option Dict)
    (max_completion_length : Nat) (cache_prompt : Bool) : Prompter :=
  { allowed_missing_variables :=
      ["examples", "description", "output_format"]
        ++ allowed_missing_variables.getD [],
    default_variable_values := default_variable_values.getD [],
    max_completion_length := max_completion_length,
    cache_prompt := cache_prompt }

/-- Python `str.strip()`: remove leading and trailing whitespace. -/
def pyStrip (s : String) : String :=
  String.mk
    (((s.data.dropWhile Char.isWhitespace).reverse.dropWhile
        Char.isWhitespace).reverse)

/-- The kwargs dict after `generate_prompt` executes
`kwargs["text_input"] = text_input`. -/
def kwargsWithText (kwargs : Dict) (text_input : Val) : Dict :=
  dictSet kwargs "text_input" text_input

/-- The variable binding snapshot
`{v: kwargs.get(v, None) for v in variables}` built in `generate_prompt`
before defaults are applied. -/
def variablesDict (vnames : List String) (kwargs : Dict) : Dict :=
  vnames.map (fun v => (v, (dictGet kwargs v).getD Val.vnone))

/-- The missing-variable scan of `generate_prompt`: template variables not in
kwargs, not allowed-missing, and without a default. -/
def variablesMissing (cfg : Prompter) (vnames : List String)
    (kwargs : Dict) : List String :=
  vnames.filter (fun v =>
    !dictContains kwargs v
      && !(cfg.allowed_missing_variables.contains v)
      && !dictContains cfg.default_variable_values v)

/-- The final argument dict passed to `template.render`:
`kwargs.update(self.default_variable_values)` lets every configured default
overwrite the kwargs entry of the same name. -/
def renderArgs (cfg : Prompter) (kwargs : Dict) : Dict :=
  dictUpdate kwargs cfg.default_variable_values

/-- The ways `generate_prompt` can raise: `TemplateNotFoundError` out of the
template loader call at line 144, the batch missing-variables `ValueError`
at line 168, and `TemplateRenderError` out of the rendering engine at
line 175. -/
inductive GenErr where
  | templateNotFound : GenErr
  | missingVariables (missing : List String) : GenErr
  | renderError : GenErr
deriving DecidableEq, Repr

/-- `Prompter.generate_prompt`.  Resolves the template (line 144), inserts
`text_input` into the kwargs (line 148), validates the variables against
the introspected names when an environment is available (lines 150 to 170),
applies the defaults over the kwargs (line 174) and renders and strips the
prompt (line 175).  Returns the stripped rendered prompt and the variable
binding snapshot, or the failure of whichever stage raised. -/
def generate_prompt (cfg : Prompter) (template : Template) (text_input : Val)
    (kwargs : Dict) : Except GenErr (String × Dict) :=
  if template.found = true then
    let kwargs := kwargsWithText kwargs text_input
    let step :=
      if template.environment then
        let vnames := template.variable_names
        let vdict := variablesDict vnames kwargs
        let missing := variablesMissing cfg vnames kwargs
        if missing.isEmpty then Except.ok vdict
        else Except.error (GenErr.missingVariables missing)
      else
        Except.ok [("data", Val.vnone)]
    match step with
    | Except.error ge => Except.error ge
    | Except.ok vdict =>
        match template.render (renderArgs cfg kwargs) with
        | Except.error _ => Except.error GenErr.renderError
        | Except.ok rendered => Except.ok (pyStrip rendered, vdict)
  else Except.error GenErr.templateNotFound

/-- One structured model output: the raw response text and the parsed
completion payload (`output["text"]` and
`output["parsed"]["data"]["completion"]` as read by `fit`).  Modelled from
the spec: section 6 requires the shaping operation of the model client to
return at least these fields. -/
structure Output where
  text : String
  completion : String
deriving DecidableEq, Repr

/-- Modelled from the spec: section 4.3 Prompt Cache (the source file imports
`PromptCache`, whose code is not among the sources).  A bounded LRU store
from rendered prompt strings to output lists; the front of `entries` is the
most recently used. -/
structure PromptCache where
  capacity : Nat
  entries : List (String × List Output)
deriving Repr

/-- Pure view of the cache contents: the outputs stored for a prompt, if any
entry for it is present. -/
def PromptCache.lookup (c : PromptCache) (p : String) : Option (List Output) :=
  (c.entries.find? (fun e => e.1 == p)).map (fun e => e.2)

/-- Modelled from the spec: `get(prompt) -> outputs | absent`; a hit counts
as a use for recency, so the entry moves to the front.  A miss returns the
Python `None`, here `Option.none`. -/
def PromptCache.get (c : PromptCache) (p : String) :
    Option (List Output) × PromptCache :=
  match c.entries.find? (fun e => e.1 == p) with
  | some e =>
      (some e.2,
        { c with entries := e :: c.entries.eraseP (fun x => x.1 == p) })
  | none => (none, c)

/-- Modelled from the spec: `put(prompt, outputs)`; inserts at the front
(most recent), overwriting any previous entry for the same prompt, and when
over capacity evicts the least-recently-used entry (the back). -/
def PromptCache.add (c : PromptCache) (p : String) (o : List Output) :
    PromptCache :=
  let es := (p, o) :: c.entries.eraseP (fun x => x.1 == p)
  { c with entries := if c.capacity < es.length then es.dropLast else es }

/-- Python truthiness of the value returned by `self.prompt_cache.get`:
`None` and the empty list are falsy, a non-empty output list is truthy.
This is the test `if output:` at line 203 of the source. -/
def truthy (o : Option (List Output)) : Bool :=
  match o with
  | some l => !l.isEmpty
  | none => false

/-- Modelled from the spec: section 3 Log Message (the helper
`create_message` and the imported `ConversationLogger` are not among the
sources).  The record fields that the `fit` call sites populate: template
identifier, rendered prompt, raw output text, parsed completion and the
variable binding snapshot.  Timestamp and run identity are supplied by the
logger environment and carry no information from this pipeline, so they are
omitted. -/
structure Message where
  template : String
  prompt : String
  text : String
  completion : String
  variable_binding : Dict
deriving DecidableEq, Repr

/-- Modelled from the spec: `create_message(template, prompt, text,
completion, **variables_dict)` packs the call data into a Log Message. -/
def create_message (template prompt text completion : String)
    (variable_binding : Dict) : Message :=
  { template := template, prompt := prompt, text := text,
    completion := completion, variable_binding := variable_binding }

/-- Modelled from the spec: section 6 Model Client (external collaborator).
`execute_with_retry` takes a list of prompt strings and either returns raw
responses or raises (`Except.error`); `model_output` shapes one raw response
given the configured maximum completion length. -/
structure ModelClient where
  execute_with_retry : List String → Except Unit (List String)
  model_output : String → Nat → Output

/-- The ways a `fit` call can raise: the three `generate_prompt` failures
(template resolution, variable validation, rendering), an exception out of
`model.execute_with_retry`, and the `IndexError` of `outputs[0]` in the
`create_message` call when the model returned an empty response list. -/
inductive FitErr where
  | templateNotFound : FitErr
  | missingVariables (missing : List String) : FitErr
  | renderError : FitErr
  | modelError : FitErr
  | emptyOutputs : FitErr
deriving DecidableEq, Repr

/-- The `fit`-level view of a `generate_prompt` failure. -/
def FitErr.ofGen : GenErr → FitErr
  | GenErr.templateNotFound => FitErr.templateNotFound
  | GenErr.missingVariables missing => FitErr.missingVariables missing
  | GenErr.renderError => FitErr.renderError

/-- The observable outcome of one `fit` call: its return value or exception,
the cache and conversation log afterwards, and which pipeline steps ran. -/
structure FitOutcome where
  result : Except FitErr (List Output)
  prompt_cache : PromptCache
  log : List Message
  cacheLookedUp : Bool
  cacheHit : Bool
  modelCalled : Bool
  normalized : Bool
  cacheStored : Bool

/-- The live-call tail of `fit` (lines 206 to 225 of the source): invoke the
model, normalize each raw response, store in the cache when caching is
enabled, build the log message from `outputs[0]` and append it. -/
def fit_live (cfg : Prompter) (m : ModelClient) (templateName prompt : String)
    (vdict : Dict) (cache : PromptCache) (log : List Message)
    (lookedUp : Bool) : FitOutcome :=
  match m.execute_with_retry [prompt] with
  | Except.error _ =>
      { result := Except.error FitErr.modelError, prompt_cache := cache,
        log := log, cacheLookedUp := lookedUp, cacheHit := false,
        modelCalled := true, normalized := false, cacheStored := false }
  | Except.ok response =>
      let outputs := response.map
        (fun r => m.model_output r cfg.max_completion_length)
      let cache2 := if cfg.cache_prompt then cache.add prompt outputs
        else cache
      match outputs with
      | [] =>
          { result := Except.error FitErr.emptyOutputs,
            prompt_cache := cache2, log := log, cacheLookedUp := lookedUp,
            cacheHit := false, modelCalled := true, normalized := true,
            cacheStored := cfg.cache_prompt }
      | o :: rest =>
          let message := create_message templateName prompt o.text
            o.completion vdict
          { result := Except.ok (o :: rest), prompt_cache := cache2,
            log := log ++ [message], cacheLookedUp := lookedUp,
            cacheHit := false, modelCalled := true, normalized := true,
            cacheStored := cfg.cache_prompt }

/-- `Prompter.fit` (lines 178 to 225 of the source): generate the prompt,
look it up in the cache when caching is enabled and return a truthy cached
value directly, otherwise run the live-call tail.  The `verbose` print has
no effect on the modelled state. -/
def fit (cfg : Prompter) (m : ModelClient) (template : Template)
    (text_input : Val) (kwargs : Dict) (cache : PromptCache)
    (log : List Message) : FitOutcome :=
  match generate_prompt cfg template text_input kwargs with
  | Except.error ge =>
      { result := Except.error (FitErr.ofGen ge),
        prompt_cache := cache, log := log, cacheLookedUp := false,
        cacheHit := false, modelCalled := false, normalized := false,
        cacheStored := false }
  | Except.ok (prompt, vdict) =>
      if cfg.cache_prompt then
        let r := cache.get prompt
        if truthy r.1 then
          { result := Except.ok (r.1.getD []), prompt_cache := r.2,
            log := log, cacheLookedUp := true, cacheHit := true,
            modelCalled := false, normalized := false, cacheStored := false }
        else
          fit_live cfg m template.name prompt vdict r.2 log true
      else
        fit_live cfg m template.name prompt vdict cache log false

/-! Concrete fixtures used by witnesses and counterexamples. -/

/-- A fixed structured output used by the concrete scenarios. -/
def exOutput : Output := { text := "T", completion := "C" }

/-- A model client that always answers with one raw response. -/
def exModel : ModelClient :=
  { execute_with_retry := fun _ => Except.ok ["raw"],
    model_output := fun _ _ => exOutput }

/-- A model client whose invocation always raises. -/
def exModelFail : ModelClient :=
  { execute_with_retry := fun _ => Except.error (),
    model_output := fun _ _ => exOutput }

/-- A resolved template referencing only `text_input`, rendering to `"p"`. -/
def exTemplate : Template :=
  { name := "t", found := true, environment := true,
    variable_names := ["text_input"], render := fun _ => Except.ok "p" }

/-- A resolved template referencing an unsatisfiable variable `foo`. -/
def exTemplateFoo : Template :=
  { name := "t", found := true, environment := true,
    variable_names := ["text_input", "foo"],
    render := fun _ => Except.ok "p" }

/-- A resolved template referencing the baseline-allowed `description`. -/
def exTemplateDescription : Template :=
  { name := "t", found := true, environment := true,
    variable_names := ["text_input", "description"],
    render := fun _ => Except.ok "p" }

/-- A resolved template referencing a variable `x`, rendered verbatim. -/
def exTemplateX : Template :=
  { name := "t", found := true, environment := true,
    variable_names := ["text_input", "x"],
    render := fun d => Except.ok (match dictGet d "x" with
      | some (Val.vstr s) => s
      | _ => "?") }

/-- A `Prompter` configuration with caching enabled and no extra settings. -/
def cfgCache : Prompter := Prompter.init none none 20 true

/-- A `Prompter` configuration with caching disabled. -/
def cfgNoCache : Prompter := Prompter.init none none 20 false

/-- A `Prompter` configuration with caching disabled and a default for `x`. -/
def cfgDefaultX : Prompter :=
  Prompter.init none (some [("x", Val.vstr "b")]) 20 false

/-- A cache holding a truthy entry for the rendered prompt `"p"`. -/
def cacheWithHit : PromptCache :=
  { capacity := 200, entries := [("p", [exOutput])] }

/-- A cache holding a falsy (empty-list) entry for the prompt `"p"`. -/
def cacheWithFalsy : PromptCache :=
  { capacity := 200, entries := [("p", [])] }

/-- An empty cache with the default capacity. -/
def cacheEmpty : PromptCache := { capacity := 200, entries := [] }

/-- A cache holding a truthy entry for `"q"` and, behind it, a falsy
(empty-list) entry for the rendered prompt `"p"`. -/
def cacheWithTwo : PromptCache :=
  { capacity := 200, entries := [("q", [exOutput]), ("p", [])] }

/-! General lemmas about the dict and cache models. -/

/-- Erasing the first element satisfying `p` does not change the first
element satisfying `q`, provided no element can satisfy both. -/
theorem find?_eraseP_of_imp {α : Type} (l : List α) (p q : α → Bool)
    (h : ∀ x, p x = true → q x = false) :
    (l.eraseP p).find? q = l.find? q := by
  induction l with
  | nil => rfl
  | cons a t ih =>
      by_cases hp : p a = true
      · rw [List.eraseP_cons_of_pos hp,
          List.find?_cons_of_neg _ (by simp [h a hp])]
      · rw [List.eraseP_cons_of_neg (by simp [hp])]
        by_cases hq : q a = true
        · rw [List.find?_cons_of_pos _ hq, List.find?_cons_of_pos _ hq]
        · rw [List.find?_cons_of_neg _ (by simp [hq]),
            List.find?_cons_of_neg _ (by simp [hq]), ih]

/-- A cache `get` never changes the stored contents, only recency order. -/
theorem PromptCache.lookup_get (c : PromptCache) (p k : String) :
    ((c.get p).2).lookup k = c.lookup k := by
  unfold PromptCache.get PromptCache.lookup
  cases hf : c.entries.find? (fun e => e.1 == p) with
  | none => rfl
  | some e =>
      have hep : (e.1 == p) = true := by simpa using List.find?_some hf
      by_cases hk : (e.1 == k) = true
      · have hkp : k = p := by
          have h1 : e.1 = p := by simpa using hep
          have h2 : e.1 = k := by simpa using hk
          rw [← h1, h2]
        subst hkp
        simp [List.find?_cons, hk, hf]
      · have hk2 : (e.1 == k) = false := by simp_all
        simp only [List.find?_cons, hk2]
        rw [find?_eraseP_of_imp]
        intro x hx
        have h1 : x.1 = p := by simpa using hx
        have h2 : e.1 = p := by simpa using hep
        simp_all

/-- A cache `get` does not change the capacity. -/
theorem PromptCache.capacity_get (c : PromptCache) (p : String) :
    ((c.get p).2).capacity = c.capacity := by
  unfold PromptCache.get
  cases hf : c.entries.find? (fun e => e.1 == p) <;> rfl

/-- After `add`, the stored outputs for the added prompt are the new ones
(the entry is inserted most-recently-used, so a positive capacity keeps it
from being the evicted element). -/
theorem PromptCache.lookup_add_self (c : PromptCache) (p : String)
    (o : List Output) (hcap : 0 < c.capacity) :
    (c.add p o).lookup p = some o := by
  unfold PromptCache.add PromptCache.lookup
  by_cases h :
      c.capacity < ((p, o) :: c.entries.eraseP (fun x => x.1 == p)).length
  · simp only [if_pos h]
    cases htail : c.entries.eraseP (fun x => x.1 == p) with
    | nil =>
        exfalso
        rw [htail] at h
        simp at h
        omega
    | cons b bs =>
        rw [List.dropLast_cons₂]
        simp [List.find?_cons]
  · simp only [if_neg h]
    simp [List.find?_cons]

/-- Membership form of `dictContains`. -/
theorem dictContains_iff (d : Dict) (v : String) :
    dictContains d v = true ↔ ∃ p ∈ d, p.1 = v := by
  simp [dictContains, List.any_eq_true]

/-- A dict lookup misses exactly when the key is not contained. -/
theorem dictGet_eq_none_iff (d : Dict) (v : String) :
    dictGet d v = none ↔ dictContains d v = false := by
  simp [dictGet, dictContains, List.find?_eq_none, List.any_eq_false]

/-- Setting an absent unrelated key preserves absence of `v`. -/
theorem dictContains_dictSet_false (d : Dict) (k : String) (val : Val)
    (v : String) (hd : dictContains d v = false) (hk : (k == v) = false) :
    dictContains (dictSet d k val) v = false := by
  unfold dictSet
  by_cases h : d.any (fun p => p.1 == k) = true
  · rw [if_pos h]
    unfold dictContains at *
    simp only [List.any_map, List.any_eq_false] at hd ⊢
    intro x hx
    by_cases hxk : (x.1 == k) = true
    · simpa [Function.comp, hxk] using hk
    · have hx2 := hd x hx
      simp only [Function.comp] at *
      simp [hxk, hx2]
  · rw [if_neg h]
    unfold dictContains at *
    simp only [List.any_append, List.any_eq_false] at hd ⊢
    simp only [Bool.or_eq_false_iff]
    constructor
    · simpa [List.any_eq_false] using hd
    · simp [hk]

/-- Updating with a dict that lacks `v` preserves absence of `v`. -/
theorem dictContains_dictUpdate_false (o d : Dict) (v : String)
    (hd : dictContains d v = false) (ho : dictContains o v = false) :
    dictContains (dictUpdate d o) v = false := by
  induction o generalizing d with
  | nil => simpa [dictUpdate]
  | cons p t ih =>
      unfold dictContains at ho
      simp only [List.any_cons, Bool.or_eq_false_iff] at ho
      have step : dictContains (dictSet d p.1 p.2) v = false :=
        dictContains_dictSet_false d p.1 p.2 v hd ho.1
      have : dictUpdate d (p :: t) = dictUpdate (dictSet d p.1 p.2) t := by
        simp [dictUpdate, List.foldl_cons]
      rw [this]
      exact ih _ step (by simpa [dictContains] using ho.2)

/-- The render arguments have no entry for a variable that is neither in the
kwargs (after `text_input` is inserted) nor among the defaults. -/
theorem dictGet_renderArgs_none (cfg : Prompter) (kw : Dict) (v : String)
    (hk : dictContains kw v = false)
    (hd : dictContains cfg.default_variable_values v = false) :
    dictGet (renderArgs cfg kw) v = none := by
  rw [dictGet_eq_none_iff]
  exact dictContains_dictUpdate_false _ _ _ hk hd

/-- In the variable binding snapshot, every template variable is bound to its
kwargs value, or to `None` when absent from the kwargs. -/
theorem dictGet_variablesDict (vnames : List String) (kw : Dict) (v : String)
    (hv : v ∈ vnames) :
    dictGet (variablesDict vnames kw) v
      = some ((dictGet kw v).getD Val.vnone) := by
  induction vnames with
  | nil => cases hv
  | cons a t ih =>
      unfold variablesDict dictGet at *
      simp only [List.map_cons, List.find?_cons]
      by_cases hav : (a == v) = true
      · have : a = v := by simpa using hav
        subst this
        simp
      · have hne : (a == v) = false := by simp_all
        simp only [hne]
        have hvt : v ∈ t := by
          rcases List.mem_cons.mp hv with h | h
          · exact absurd h.symm (by simpa using hne)
          · exact h
        simpa [variablesDict, dictGet] using ih hvt

/-- Equation: `generate_prompt` when the identifier does not resolve. -/
theorem generate_prompt_eq_notFound (cfg : Prompter) (t : Template)
    (ti : Val) (kw : Dict) (hnf : t.found = false) :
    generate_prompt cfg t ti kw = Except.error GenErr.templateNotFound := by
  unfold generate_prompt
  rw [hnf]
  simp

/-- With a resolved template and an environment, `generate_prompt` raises
exactly the non-empty missing-variable batch. -/
theorem generate_prompt_eq_error (cfg : Prompter) (t : Template)
    (ti : Val) (kw : Dict) (hfound : t.found = true)
    (henv : t.environment = true)
    (h : variablesMissing cfg t.variable_names (kwargsWithText kw ti) ≠ []) :
    generate_prompt cfg t ti kw
      = Except.error (GenErr.missingVariables
          (variablesMissing cfg t.variable_names (kwargsWithText kw ti))) := by
  unfold generate_prompt
  rw [hfound, henv]
  simp [List.isEmpty_iff, h]

/-- With a resolved template, an environment, no missing variables and a
failing render, `generate_prompt` raises the render error. -/
theorem generate_prompt_eq_renderError (cfg : Prompter) (t : Template)
    (ti : Val) (kw : Dict) (u : Unit) (hfound : t.found = true)
    (henv : t.environment = true)
    (hm : variablesMissing cfg t.variable_names (kwargsWithText kw ti) = [])
    (hr : t.render (renderArgs cfg (kwargsWithText kw ti))
      = Except.error u) :
    generate_prompt cfg t ti kw = Except.error GenErr.renderError := by
  unfold generate_prompt
  rw [hfound, henv]
  simp [List.isEmpty_iff, hm, hr]

/-- With a resolved template, an environment, no missing variables and a
successful render, `generate_prompt` returns the stripped rendered string
of the defaults-updated kwargs, together with the pre-default binding
snapshot. -/
theorem generate_prompt_eq_ok (cfg : Prompter) (t : Template)
    (ti : Val) (kw : Dict) (rendered : String) (hfound : t.found = true)
    (henv : t.environment = true)
    (hm : variablesMissing cfg t.variable_names (kwargsWithText kw ti) = [])
    (hr : t.render (renderArgs cfg (kwargsWithText kw ti))
      = Except.ok rendered) :
    generate_prompt cfg t ti kw
      = Except.ok (pyStrip rendered,
          variablesDict t.variable_names (kwargsWithText kw ti)) := by
  unfold generate_prompt
  rw [hfound, henv]
  simp [List.isEmpty_iff, hm, hr]

/-- Inversion: a missing-variables error out of `generate_prompt` under a
template environment is the missing-variable batch, and it is
non-empty. -/
theorem generate_prompt_error_inv (cfg : Prompter) (t : Template)
    (ti : Val) (kw : Dict) (missing : List String)
    (henv : t.environment = true)
    (h : generate_prompt cfg t ti kw
      = Except.error (GenErr.missingVariables missing)) :
    missing = variablesMissing cfg t.variable_names (kwargsWithText kw ti)
      ∧ missing ≠ [] := by
  by_cases hfound : t.found = true
  · by_cases hm :
        variablesMissing cfg t.variable_names (kwargsWithText kw ti) = []
    · cases hr : t.render (renderArgs cfg (kwargsWithText kw ti)) with
      | error u =>
          rw [generate_prompt_eq_renderError cfg t ti kw u hfound henv hm
            hr] at h
          cases h
      | ok rendered =>
          rw [generate_prompt_eq_ok cfg t ti kw rendered hfound henv hm
            hr] at h
          cases h
    · rw [generate_prompt_eq_error cfg t ti kw hfound henv hm] at h
      cases h
      exact ⟨rfl, hm⟩
  · rw [generate_prompt_eq_notFound cfg t ti kw
      (by simpa using hfound)] at h
    cases h

/-- Membership in the missing-variable batch, spelled out. -/
theorem mem_variablesMissing (cfg : Prompter) (vnames : List String)
    (kw : Dict) (v : String) :
    v ∈ variablesMissing cfg vnames kw
      ↔ v ∈ vnames ∧ dictContains kw v = false
          ∧ v ∉ cfg.allowed_missing_variables
          ∧ dictContains cfg.default_variable_values v = false := by
  unfold variablesMissing
  rw [List.mem_filter]
  simp only [Bool.and_eq_true, Bool.not_eq_true']
  have hcm : cfg.allowed_missing_variables.contains v = false ↔
      v ∉ cfg.allowed_missing_variables := by simp
  rw [hcm]
  tauto

/-- Equation: `fit` on a `generate_prompt` failure at any of its stages. -/
theorem fit_eq_genErr (cfg : Prompter) (m : ModelClient) (t : Template)
    (ti : Val) (kw : Dict) (cache : PromptCache) (log : List Message)
    (ge : GenErr)
    (h : generate_prompt cfg t ti kw = Except.error ge) :
    fit cfg m t ti kw cache log
      = { result := Except.error (FitErr.ofGen ge),
          prompt_cache := cache, log := log, cacheLookedUp := false,
          cacheHit := false, modelCalled := false, normalized := false,
          cacheStored := false } := by
  unfold fit
  rw [h]

/-- Equation: `fit` with caching disabled runs the live tail directly. -/
theorem fit_eq_nocache (cfg : Prompter) (m : ModelClient) (t : Template)
    (ti : Val) (kw : Dict) (cache : PromptCache) (log : List Message)
    (prompt : String) (vdict : Dict)
    (h : generate_prompt cfg t ti kw = Except.ok (prompt, vdict))
    (hc : cfg.cache_prompt = false) :
    fit cfg m t ti kw cache log
      = fit_live cfg m t.name prompt vdict cache log false := by
  unfold fit
  rw [h, hc]
  simp

/-- Equation: `fit` with caching enabled and a truthy cached value returns
it directly. -/
theorem fit_eq_cache_hit (cfg : Prompter) (m : ModelClient) (t : Template)
    (ti : Val) (kw : Dict) (cache : PromptCache) (log : List Message)
    (prompt : String) (vdict : Dict)
    (h : generate_prompt cfg t ti kw = Except.ok (prompt, vdict))
    (hc : cfg.cache_prompt = true)
    (ht : truthy (cache.get prompt).1 = true) :
    fit cfg m t ti kw cache log
      = { result := Except.ok ((cache.get prompt).1.getD []),
          prompt_cache := (cache.get prompt).2, log := log,
          cacheLookedUp := true, cacheHit := true, modelCalled := false,
          normalized := false, cacheStored := false } := by
  unfold fit
  rw [h, hc]
  simp [ht]

/-- Equation: `fit` with caching enabled and a falsy cached value (absent,
or stored as an empty list) runs the live tail on the recency-updated
cache. -/
theorem fit_eq_cache_miss (cfg : Prompter) (m : ModelClient) (t : Template)
    (ti : Val) (kw : Dict) (cache : PromptCache) (log : List Message)
    (prompt : String) (vdict : Dict)
    (h : generate_prompt cfg t ti kw = Except.ok (prompt, vdict))
    (hc : cfg.cache_prompt = true)
    (ht : truthy (cache.get prompt).1 = false) :
    fit cfg m t ti kw cache log
      = fit_live cfg m t.name prompt vdict (cache.get prompt).2 log true := by
  unfold fit
  rw [h, hc]
  simp [ht]

/-- Equation: the live tail when the model client raises. -/
theorem fit_live_eq_error (cfg : Prompter) (m : ModelClient)
    (tn prompt : String) (vdict : Dict) (cache : PromptCache)
    (log : List Message) (lu : Bool) (e : Unit)
    (h : m.execute_with_retry [prompt] = Except.error e) :
    fit_live cfg m tn prompt vdict cache log lu
      = { result := Except.error FitErr.modelError, prompt_cache := cache,
          log := log, cacheLookedUp := lu, cacheHit := false,
          modelCalled := true, normalized := false,
          cacheStored := false } := by
  unfold fit_live
  rw [h]

/-- Equation: the live tail on a model response whose normalization is
non-empty. -/
theorem fit_live_eq_ok_cons (cfg : Prompter) (m : ModelClient)
    (tn prompt : String) (vdict : Dict) (cache : PromptCache)
    (log : List Message) (lu : Bool) (response : List String)
    (o : Output) (rest : List Output)
    (h : m.execute_with_retry [prompt] = Except.ok response)
    (ho : response.map (fun r => m.model_output r cfg.max_completion_length)
      = o :: rest) :
    fit_live cfg m tn prompt vdict cache log lu
      = { result := Except.ok (o :: rest),
          prompt_cache :=
            if cfg.cache_prompt then cache.add prompt (o :: rest) else cache,
          log := log ++ [create_message tn prompt o.text o.completion vdict],
          cacheLookedUp := lu, cacheHit := false, modelCalled := true,
          normalized := true, cacheStored := cfg.cache_prompt } := by
  unfold fit_live
  rw [h]
  simp only [ho]

/-- Equation: the live tail on an empty model response: the empty output
list is cached (when caching is on) and then `outputs[0]` raises. -/
theorem fit_live_eq_ok_nil (cfg : Prompter) (m : ModelClient)
    (tn prompt : String) (vdict : Dict) (cache : PromptCache)
    (log : List Message) (lu : Bool) (response : List String)
    (h : m.execute_with_retry [prompt] = Except.ok response)
    (ho : response.map (fun r => m.model_output r cfg.max_completion_length)
      = []) :
    fit_live cfg m tn prompt vdict cache log lu
      = { result := Except.error FitErr.emptyOutputs,
          prompt_cache :=
            if cfg.cache_prompt then cache.add prompt [] else cache,
          log := log, cacheLookedUp := lu, cacheHit := false,
          modelCalled := true, normalized := true,
          cacheStored := cfg.cache_prompt } := by
  unfold fit_live
  rw [h]
  simp only [ho]

/-- The value returned by a cache `get` is the stored contents. -/
theorem PromptCache.get_fst (c : PromptCache) (p : String) :
    (c.get p).1 = c.lookup p := by
  unfold PromptCache.get PromptCache.lookup
  cases hf : c.entries.find? (fun e => e.1 == p) <;> rfl

/-- Inversion: a success of `generate_prompt` under a template environment
means the identifier resolved, the missing batch was empty, the snapshot is
the pre-default binding, and the prompt is the stripped successful render
of the defaults-updated kwargs. -/
theorem generate_prompt_ok_inv (cfg : Prompter) (t : Template) (ti : Val)
    (kw : Dict) (prompt : String) (vdict : Dict)
    (henv : t.environment = true)
    (h : generate_prompt cfg t ti kw = Except.ok (prompt, vdict)) :
    t.found = true
      ∧ vdict = variablesDict t.variable_names (kwargsWithText kw ti)
      ∧ variablesMissing cfg t.variable_names (kwargsWithText kw ti) = []
      ∧ ∃ rendered,
          t.render (renderArgs cfg (kwargsWithText kw ti))
              = Except.ok rendered
            ∧ prompt = pyStrip rendered := by
  by_cases hfound : t.found = true
  · by_cases hm :
        variablesMissing cfg t.variable_names (kwargsWithText kw ti) = []
    · cases hr : t.render (renderArgs cfg (kwargsWithText kw ti)) with
      | error u =>
          rw [generate_prompt_eq_renderError cfg t ti kw u hfound henv hm
            hr] at h
          cases h
      | ok rendered =>
          rw [generate_prompt_eq_ok cfg t ti kw rendered hfound henv hm
            hr] at h
          cases h
          exact ⟨hfound, rfl, hm, rendered, rfl, rfl⟩
    · rw [generate_prompt_eq_error cfg t ti kw hfound henv hm] at h
      cases h
  · rw [generate_prompt_eq_notFound cfg t ti kw
      (by simpa using hfound)] at h
    cases h

/-- Behavior of the live-call tail: the flags it sets, that with caching off
it never touches the cache, that a success appends exactly the one message
built from the binding snapshot, that a failure appends nothing, and that a
model-client failure leaves the cache untouched. -/
theorem fit_live_spec (cfg : Prompter) (m : ModelClient)
    (tn prompt : String) (vdict : Dict) (cache : PromptCache)
    (log : List Message) (lu : Bool) :
    (fit_live cfg m tn prompt vdict cache log lu).cacheLookedUp = lu
    ∧ (fit_live cfg m tn prompt vdict cache log lu).cacheHit = false
    ∧ (fit_live cfg m tn prompt vdict cache log lu).modelCalled = true
    ∧ (cfg.cache_prompt = false →
        (fit_live cfg m tn prompt vdict cache log lu).prompt_cache = cache
        ∧ (fit_live cfg m tn prompt vdict cache log lu).cacheStored = false)
    ∧ (∀ outs,
        (fit_live cfg m tn prompt vdict cache log lu).result
            = Except.ok outs →
        ∃ msg, (fit_live cfg m tn prompt vdict cache log lu).log
            = log ++ [msg] ∧ msg.variable_binding = vdict)
    ∧ (∀ e,
        (fit_live cfg m tn prompt vdict cache log lu).result
            = Except.error e →
        (fit_live cfg m tn prompt vdict cache log lu).log = log)
    ∧ ((fit_live cfg m tn prompt vdict cache log lu).result
          = Except.error FitErr.modelError →
        (fit_live cfg m tn prompt vdict cache log lu).prompt_cache = cache) := by
  cases he : m.execute_with_retry [prompt] with
  | error e =>
      rw [fit_live_eq_error cfg m tn prompt vdict cache log lu e he]
      refine ⟨rfl, rfl, rfl, fun _ => ⟨rfl, rfl⟩, ?_, fun _ _ => rfl, fun _ => rfl⟩
      intro outs hout
      cases hout
  | ok response =>
      cases ho : response.map
          (fun r => m.model_output r cfg.max_completion_length) with
      | nil =>
          rw [fit_live_eq_ok_nil cfg m tn prompt vdict cache log lu response
            he ho]
          refine ⟨rfl, rfl, rfl, fun hc => ⟨by simp [hc], hc⟩, ?_, fun _ _ => rfl, ?_⟩
          · intro outs hout
            cases hout
          · intro hres
            cases hres
      | cons o rest =>
          rw [fit_live_eq_ok_cons cfg m tn prompt vdict cache log lu response
            o rest he ho]
          refine ⟨rfl, rfl, rfl, fun hc => ⟨by simp [hc], hc⟩, ?_, ?_, ?_⟩
          · intro outs hout
            exact ⟨create_message tn prompt o.text o.completion vdict, rfl, rfl⟩
          · intro e hout
            cases hout
          · intro hres
            cases hres

/-! The claims. -/

/-- C2: the claim says caller kwargs take precedence over configured
defaults.  The code does the opposite: `kwargs.update(default_variable_values)`
at line 174 overwrites the caller value with the default before rendering.
Evaluated at template `{{ x }}` with caller kwargs `x = "a"` and default
`x = "b"`, the rendered prompt is the default `"b"`, not the caller value,
while the binding snapshot still records the caller value. -/
theorem C2_defaults_overwrite_caller_kwargs :
    generate_prompt cfgDefaultX exTemplateX (Val.vstr "hi")
        [("x", Val.vstr "a")]
      = Except.ok
          ("b", [("text_input", Val.vstr "hi"), ("x", Val.vstr "a")]) := by
  rfl

/-- C3: for a resolved template with an environment, `generate_prompt`
fails with the missing-variables error exactly when some template variable
is absent from the kwargs (with `text_input` included), from the
allowed-missing list and from the defaults; and the raised batch names
exactly those variables.  (The resolution hypothesis mirrors the approved
environment hypothesis: the claim is about the validation stage, reached
once `load_template` succeeds.) -/
theorem C3_missing_variables_error_iff (cfg : Prompter) (t : Template)
    (ti : Val) (kw : Dict) (hfound : t.found = true)
    (henv : t.environment = true) :
    ((∃ missing, generate_prompt cfg t ti kw
        = Except.error (GenErr.missingVariables missing)) ↔
      ∃ v, v ∈ t.variable_names
        ∧ dictContains (kwargsWithText kw ti) v = false
        ∧ v ∉ cfg.allowed_missing_variables
        ∧ dictContains cfg.default_variable_values v = false)
    ∧ ∀ missing, generate_prompt cfg t ti kw
        = Except.error (GenErr.missingVariables missing) →
        ∀ v, (v ∈ missing ↔
          v ∈ t.variable_names
            ∧ dictContains (kwargsWithText kw ti) v = false
            ∧ v ∉ cfg.allowed_missing_variables
            ∧ dictContains cfg.default_variable_values v = false) := by
  constructor
  · constructor
    · rintro ⟨missing, h⟩
      obtain ⟨hm, hne⟩ :=
        generate_prompt_error_inv cfg t ti kw missing henv h
      subst hm
      obtain ⟨v, hv⟩ := List.exists_mem_of_ne_nil _ hne
      exact ⟨v, (mem_variablesMissing cfg t.variable_names
        (kwargsWithText kw ti) v).mp hv⟩
    · rintro ⟨v, hv⟩
      have hvm := (mem_variablesMissing cfg t.variable_names
        (kwargsWithText kw ti) v).mpr hv
      exact ⟨_, generate_prompt_eq_error cfg t ti kw hfound henv
        (List.ne_nil_of_mem hvm)⟩
  · intro missing h v
    obtain ⟨hm, _⟩ := generate_prompt_error_inv cfg t ti kw missing henv h
    subst hm
    exact mem_variablesMissing cfg t.variable_names (kwargsWithText kw ti) v

/-- Witness for C3: a template referencing `foo`, with `foo` supplied
nowhere, makes `generate_prompt` raise. -/
theorem C3_missing_variables_error_iff_witness :
    ∃ missing, generate_prompt cfgNoCache exTemplateFoo (Val.vstr "hi") []
      = Except.error (GenErr.missingVariables missing) :=
  ((C3_missing_variables_error_iff cfgNoCache exTemplateFoo (Val.vstr "hi")
      [] rfl rfl).1).mpr
    ⟨"foo", by decide, by decide, by decide, by decide⟩

/-- Counterexample to C4: the claim says an allowed-missing variable that is
supplied nowhere is bound to a distinct sentinel that is not `None`.  In the
code, `variables_dict = {v: kwargs.get(v, None) for v in variables}` binds
it to Python `None` (`Val.vnone`): with baseline-allowed `description`
supplied nowhere, the returned binding records `("description", None)`. -/
theorem C4_counterexample :
    generate_prompt cfgNoCache exTemplateDescription (Val.vstr "hi") []
      = Except.ok
          ("p", [("text_input", Val.vstr "hi"),
            ("description", Val.vnone)]) := by
  rfl

/-- C4 amended: a template variable that is supplied neither in the kwargs
(after `text_input` is inserted) nor in the defaults is bound to `None` in
the binding snapshot, and is simply absent from the render arguments; there
is no distinct absence sentinel. -/
theorem C4_amended_absent_bound_to_none (cfg : Prompter) (t : Template)
    (ti : Val) (kw : Dict) (prompt : String) (vdict : Dict) (v : String)
    (henv : t.environment = true)
    (hg : generate_prompt cfg t ti kw = Except.ok (prompt, vdict))
    (hv : v ∈ t.variable_names)
    (_hall : v ∈ cfg.allowed_missing_variables)
    (hk : dictContains (kwargsWithText kw ti) v = false)
    (hd : dictContains cfg.default_variable_values v = false) :
    dictGet vdict v = some Val.vnone
    ∧ dictGet (renderArgs cfg (kwargsWithText kw ti)) v = none := by
  obtain ⟨_, hvd, hm, _⟩ :=
    generate_prompt_ok_inv cfg t ti kw prompt vdict henv hg
  subst hvd
  constructor
  · rw [dictGet_variablesDict t.variable_names (kwargsWithText kw ti) v hv,
      (dictGet_eq_none_iff (kwargsWithText kw ti) v).mpr hk]
    rfl
  · exact dictGet_renderArgs_none cfg (kwargsWithText kw ti) v hk hd

/-- Witness for the amended C4: baseline-allowed `description`, supplied
nowhere, is bound to `None` and absent from the render arguments. -/
theorem C4_amended_absent_bound_to_none_witness :
    dictGet [("text_input", Val.vstr "hi"), ("description", Val.vnone)]
        "description" = some Val.vnone
    ∧ dictGet (renderArgs cfgNoCache
        (kwargsWithText [] (Val.vstr "hi"))) "description" = none :=
  C4_amended_absent_bound_to_none cfgNoCache exTemplateDescription
    (Val.vstr "hi") [] "p"
    [("text_input", Val.vstr "hi"), ("description", Val.vnone)]
    "description" rfl (by rfl) (by decide) (by decide) (by decide) (by decide)

/-- C5: the effective allowed-missing list of every constructed `Prompter`
contains the baseline `examples`, `description` and `output_format`,
whatever the construction argument (including `None` and the empty list),
and every caller-supplied addition is also present. -/
theorem C5_baseline_allowed_missing (a : Option (List String))
    (d : Option Dict) (ml : Nat) (cp : Bool) :
    "examples" ∈ (Prompter.init a d ml cp).allowed_missing_variables
    ∧ "description" ∈ (Prompter.init a d ml cp).allowed_missing_variables
    ∧ "output_format" ∈ (Prompter.init a d ml cp).allowed_missing_variables
    ∧ ∀ v ∈ a.getD [],
        v ∈ (Prompter.init a d ml cp).allowed_missing_variables := by
  refine ⟨by simp [Prompter.init], by simp [Prompter.init],
    by simp [Prompter.init], ?_⟩
  intro v hv
  simp only [Prompter.init, List.mem_append]
  exact Or.inr hv

/-- Witness for C5: with the extension `["extra"]`, both a baseline name and
the extension are in the allowed-missing list. -/
theorem C5_baseline_allowed_missing_witness :
    "examples" ∈ (Prompter.init (some ["extra"]) none 20
        false).allowed_missing_variables
    ∧ "extra" ∈ (Prompter.init (some ["extra"]) none 20
        false).allowed_missing_variables :=
  ⟨(C5_baseline_allowed_missing (some ["extra"]) none 20 false).1,
    (C5_baseline_allowed_missing (some ["extra"]) none 20 false).2.2.2
      "extra" (by decide)⟩

/-- Counterexample to C1: the claim says every successful `fit` call, cache
hit or not, appends exactly one log message.  On a cache hit the code
returns at line 204 before `self.logger.add_message`: here a call succeeds
(returns the cached outputs) while the conversation log stays empty. -/
theorem C1_counterexample :
    (fit cfgCache exModel exTemplate (Val.vstr "hi") [] cacheWithHit
        []).result = Except.ok [exOutput]
    ∧ (fit cfgCache exModel exTemplate (Val.vstr "hi") [] cacheWithHit
        []).log = [] := by
  exact ⟨rfl, rfl⟩

/-- C1 amended: a successful live (cache-miss) call appends exactly one log
message; a successful cache-hit call appends zero; a failed call appends
zero. -/
theorem C1_amended_log_growth (cfg : Prompter) (m : ModelClient)
    (t : Template) (ti : Val) (kw : Dict) (cache : PromptCache)
    (log : List Message) :
    (∀ outs, (fit cfg m t ti kw cache log).result = Except.ok outs →
        (fit cfg m t ti kw cache log).cacheHit = false →
        (fit cfg m t ti kw cache log).log.length = log.length + 1)
    ∧ (∀ outs, (fit cfg m t ti kw cache log).result = Except.ok outs →
        (fit cfg m t ti kw cache log).cacheHit = true →
        (fit cfg m t ti kw cache log).log = log)
    ∧ (∀ e, (fit cfg m t ti kw cache log).result = Except.error e →
        (fit cfg m t ti kw cache log).log = log) := by
  cases hg : generate_prompt cfg t ti kw with
  | error ge =>
      rw [fit_eq_genErr cfg m t ti kw cache log ge hg]
      exact ⟨fun outs hout => (by cases hout), fun outs hout => (by cases hout),
        fun e hout => rfl⟩
  | ok pv =>
      obtain ⟨prompt, vdict⟩ := pv
      by_cases hc : cfg.cache_prompt = true
      · by_cases ht : truthy (cache.get prompt).1 = true
        · rw [fit_eq_cache_hit cfg m t ti kw cache log prompt vdict hg hc ht]
          exact ⟨fun outs hout hhit => (by cases hhit),
            fun outs hout hhit => rfl, fun e hout => (by cases hout)⟩
        · rw [fit_eq_cache_miss cfg m t ti kw cache log prompt vdict hg hc
            (by simpa using ht)]
          obtain ⟨_, hhitL, _, _, hok, herr, _⟩ :=
            fit_live_spec cfg m t.name prompt vdict (cache.get prompt).2 log
              true
          refine ⟨fun outs hout hhit => ?_, fun outs hout hhit => ?_,
            fun e hout => herr e hout⟩
          · obtain ⟨msg, hlog, _⟩ := hok outs hout
            simp [hlog]
          · rw [hhitL] at hhit
            cases hhit
      · rw [fit_eq_nocache cfg m t ti kw cache log prompt vdict hg
          (by simpa using hc)]
        obtain ⟨_, hhit, _, _, hok, herr, _⟩ :=
          fit_live_spec cfg m t.name prompt vdict cache log false
        refine ⟨fun outs hout _ => ?_, fun outs hout hhit2 => ?_,
          fun e hout => herr e hout⟩
        · obtain ⟨msg, hlog, _⟩ := hok outs hout
          simp [hlog]
        · rw [hhit] at hhit2
          cases hhit2

/-- Witness for the amended C1: a live call on an empty cache appends one
message to the empty log. -/
theorem C1_amended_log_growth_witness :
    (fit cfgNoCache exModel exTemplate (Val.vstr "hi") [] cacheEmpty
        []).log.length = 1 :=
  (C1_amended_log_growth cfgNoCache exModel exTemplate (Val.vstr "hi") []
    cacheEmpty []).1 [exOutput] rfl rfl

/-- Counterexample to C6: the claim says that whenever caching is enabled
and the rendered prompt has a cached entry, `fit` returns it with no model
invocation.  The hit test `if output:` at line 203 checks truthiness, so a
present entry whose stored output list is empty is not returned: here the
cache holds an entry for the rendered prompt `"p"`, yet the model client is
invoked. -/
theorem C6_counterexample :
    cacheWithFalsy.lookup "p" = some []
    ∧ (fit cfgCache exModel exTemplate (Val.vstr "hi") [] cacheWithFalsy
        []).modelCalled = true := by
  exact ⟨rfl, rfl⟩

/-- C6 amended: when caching is enabled and the rendered prompt has a
cached entry with a non-empty (truthy) outputs list, `fit` returns the
cached outputs directly with no model invocation, no normalization and no
cache store; and the cache lookup step runs only when caching is enabled
for the instance. -/
theorem C6_amended_truthy_hit_short_circuits (cfg : Prompter)
    (m : ModelClient) (t : Template) (ti : Val) (kw : Dict)
    (cache : PromptCache) (log : List Message) (prompt : String)
    (vdict : Dict) (l : List Output)
    (hg : generate_prompt cfg t ti kw = Except.ok (prompt, vdict))
    (hc : cfg.cache_prompt = true)
    (hl : cache.lookup prompt = some l) (hne : l ≠ []) :
    ((fit cfg m t ti kw cache log).result = Except.ok l
      ∧ (fit cfg m t ti kw cache log).modelCalled = false
      ∧ (fit cfg m t ti kw cache log).normalized = false
      ∧ (fit cfg m t ti kw cache log).cacheStored = false
      ∧ (fit cfg m t ti kw cache log).cacheLookedUp = true)
    ∧ ∀ (cfg2 : Prompter) (m2 : ModelClient) (t2 : Template) (ti2 : Val)
        (kw2 : Dict) (cache2 : PromptCache) (log2 : List Message),
        (fit cfg2 m2 t2 ti2 kw2 cache2 log2).cacheLookedUp = true →
        cfg2.cache_prompt = true := by
  constructor
  · have hfst : (cache.get prompt).1 = some l := by
      rw [PromptCache.get_fst]
      exact hl
    have ht : truthy (cache.get prompt).1 = true := by
      rw [hfst]
      simpa [truthy] using hne
    rw [fit_eq_cache_hit cfg m t ti kw cache log prompt vdict hg hc ht]
    refine ⟨?_, rfl, rfl, rfl, rfl⟩
    simp [hfst]
  · intro cfg2 m2 t2 ti2 kw2 cache2 log2 hlu
    cases hg2 : generate_prompt cfg2 t2 ti2 kw2 with
    | error ge =>
        rw [fit_eq_genErr cfg2 m2 t2 ti2 kw2 cache2 log2 ge hg2] at hlu
        cases hlu
    | ok pv =>
        obtain ⟨prompt2, vdict2⟩ := pv
        by_cases hc2 : cfg2.cache_prompt = true
        · exact hc2
        · rw [fit_eq_nocache cfg2 m2 t2 ti2 kw2 cache2 log2 prompt2 vdict2
            hg2 (by simpa using hc2)] at hlu
          obtain ⟨hlu2, _⟩ :=
            fit_live_spec cfg2 m2 t2.name prompt2 vdict2 cache2 log2 false
          rw [hlu2] at hlu
          cases hlu

/-- Witness for the amended C6: a truthy cached entry for the rendered
prompt is returned with no model call. -/
theorem C6_amended_truthy_hit_short_circuits_witness :
    (fit cfgCache exModel exTemplate (Val.vstr "hi") [] cacheWithHit
        []).result = Except.ok [exOutput]
    ∧ (fit cfgCache exModel exTemplate (Val.vstr "hi") [] cacheWithHit
        []).modelCalled = false :=
  ⟨((C6_amended_truthy_hit_short_circuits cfgCache exModel exTemplate
      (Val.vstr "hi") [] cacheWithHit [] "p"
      [("text_input", Val.vstr "hi")] [exOutput] rfl rfl rfl
      (by decide)).1).1,
    ((C6_amended_truthy_hit_short_circuits cfgCache exModel exTemplate
      (Val.vstr "hi") [] cacheWithHit [] "p"
      [("text_input", Val.vstr "hi")] [exOutput] rfl rfl rfl
      (by decide)).1).2.1⟩

/-- Counterexample to C7: the claim says a failed `fit` call leaves the
prompt cache unchanged.  Under the spec-modelled LRU (section 4.3: a `get`
hit counts as a use for recency), the enabled-cache lookup of this failing
call finds the present-but-falsy entry for the rendered prompt `"p"` and
moves it to most-recently-used before the model client raises: the call
fails with the model error, every key still maps to the same contents, but
the cache state — its recency order — has changed. -/
theorem C7_counterexample :
    (fit cfgCache exModelFail exTemplate (Val.vstr "hi") [] cacheWithTwo
        []).result = Except.error FitErr.modelError
    ∧ (fit cfgCache exModelFail exTemplate (Val.vstr "hi") [] cacheWithTwo
        []).prompt_cache.entries ≠ cacheWithTwo.entries := by
  exact ⟨rfl, by decide⟩

/-- C7 amended: a `fit` call that fails at template resolution, variable
validation, rendering or model invocation raises before any cache store or
log append: the conversation log and the cache contents at every key are
unchanged, and for the failures raised inside `generate_prompt`
(resolution, validation, rendering) the cache state is literally
untouched.  After a model-invocation failure the contents are intact too;
only the LRU recency bookkeeping of the lookup that preceded the failing
invocation may differ (the counterexample).  The excluded failure
`FitErr.emptyOutputs` arises at the later message-creation stage, outside
the stages the claim enumerates, and does follow a cache store. -/
theorem C7_amended_failure_before_store (cfg : Prompter) (m : ModelClient)
    (t : Template) (ti : Val) (kw : Dict) (cache : PromptCache)
    (log : List Message) (e : FitErr)
    (hres : (fit cfg m t ti kw cache log).result = Except.error e)
    (hne : e ≠ FitErr.emptyOutputs) :
    (∀ k, (fit cfg m t ti kw cache log).prompt_cache.lookup k
        = cache.lookup k)
    ∧ (fit cfg m t ti kw cache log).log = log
    ∧ (e ≠ FitErr.modelError →
        (fit cfg m t ti kw cache log).prompt_cache = cache) := by
  cases hg : generate_prompt cfg t ti kw with
  | error ge =>
      rw [fit_eq_genErr cfg m t ti kw cache log ge hg]
      exact ⟨fun k => rfl, rfl, fun _ => rfl⟩
  | ok pv =>
      obtain ⟨prompt, vdict⟩ := pv
      by_cases hc : cfg.cache_prompt = true
      · by_cases ht : truthy (cache.get prompt).1 = true
        · rw [fit_eq_cache_hit cfg m t ti kw cache log prompt vdict hg hc
            ht] at hres
          cases hres
        · rw [fit_eq_cache_miss cfg m t ti kw cache log prompt vdict hg hc
            (by simpa using ht)] at hres ⊢
          cases he : m.execute_with_retry [prompt] with
          | error u =>
              rw [fit_live_eq_error cfg m t.name prompt vdict
                (cache.get prompt).2 log true u he] at hres ⊢
              cases hres
              exact ⟨fun k => PromptCache.lookup_get cache prompt k, rfl,
                fun hmod => absurd rfl hmod⟩
          | ok response =>
              cases ho : response.map
                  (fun r => m.model_output r cfg.max_completion_length) with
              | nil =>
                  rw [fit_live_eq_ok_nil cfg m t.name prompt vdict
                    (cache.get prompt).2 log true response he ho] at hres
                  cases hres
                  exact absurd rfl hne
              | cons o rest =>
                  rw [fit_live_eq_ok_cons cfg m t.name prompt vdict
                    (cache.get prompt).2 log true response o rest he
                    ho] at hres
                  cases hres
      · rw [fit_eq_nocache cfg m t ti kw cache log prompt vdict hg
          (by simpa using hc)] at hres ⊢
        cases he : m.execute_with_retry [prompt] with
        | error u =>
            rw [fit_live_eq_error cfg m t.name prompt vdict cache log false
              u he] at hres ⊢
            cases hres
            exact ⟨fun k => rfl, rfl, fun _ => rfl⟩
        | ok response =>
            cases ho : response.map
                (fun r => m.model_output r cfg.max_completion_length) with
            | nil =>
                rw [fit_live_eq_ok_nil cfg m t.name prompt vdict cache log
                  false response he ho] at hres
                cases hres
                exact absurd rfl hne
            | cons o rest =>
                rw [fit_live_eq_ok_cons cfg m t.name prompt vdict cache log
                  false response o rest he ho] at hres
                cases hres

/-- Witness for the amended C7: a model-client failure with caching enabled
leaves the cached entry contents and the empty log unchanged. -/
theorem C7_amended_failure_before_store_witness :
    (fit cfgCache exModelFail exTemplate (Val.vstr "hi") [] cacheWithFalsy
        []).prompt_cache.lookup "p" = cacheWithFalsy.lookup "p"
    ∧ (fit cfgCache exModelFail exTemplate (Val.vstr "hi") [] cacheWithFalsy
        []).log = [] :=
  ⟨(C7_amended_failure_before_store cfgCache exModelFail exTemplate
      (Val.vstr "hi") [] cacheWithFalsy [] FitErr.modelError rfl
      (by decide)).1 "p",
    (C7_amended_failure_before_store cfgCache exModelFail exTemplate
      (Val.vstr "hi") [] cacheWithFalsy [] FitErr.modelError rfl
      (by decide)).2.1⟩

/-- A single `fit` call with caching disabled: the model client is invoked,
the cache is neither looked up nor written, and the cache state is
unchanged. -/
theorem fit_nocache_spec (cfg : Prompter) (m : ModelClient) (t : Template)
    (ti : Val) (kw : Dict) (cache : PromptCache) (log : List Message)
    (prompt : String) (vdict : Dict)
    (hc : cfg.cache_prompt = false)
    (hg : generate_prompt cfg t ti kw = Except.ok (prompt, vdict)) :
    (fit cfg m t ti kw cache log).modelCalled = true
    ∧ (fit cfg m t ti kw cache log).cacheLookedUp = false
    ∧ (fit cfg m t ti kw cache log).cacheStored = false
    ∧ (fit cfg m t ti kw cache log).prompt_cache = cache := by
  rw [fit_eq_nocache cfg m t ti kw cache log prompt vdict hg hc]
  obtain ⟨hlu, _, hmc, hnc, _⟩ :=
    fit_live_spec cfg m t.name prompt vdict cache log false
  exact ⟨hmc, hlu, (hnc hc).2, (hnc hc).1⟩

/-- C8: with caching disabled, two consecutive `fit` calls with the same
template and inputs both invoke the model client; neither call reads or
writes the cache, whose state is unchanged after each call. -/
theorem C8_no_cache_both_calls_invoke_model (cfg : Prompter)
    (m : ModelClient) (t : Template) (ti : Val) (kw : Dict)
    (cache : PromptCache) (log : List Message) (prompt : String)
    (vdict : Dict)
    (hc : cfg.cache_prompt = false)
    (hg : generate_prompt cfg t ti kw = Except.ok (prompt, vdict)) :
    (fit cfg m t ti kw cache log).modelCalled = true
    ∧ (fit cfg m t ti kw cache log).cacheLookedUp = false
    ∧ (fit cfg m t ti kw cache log).cacheStored = false
    ∧ (fit cfg m t ti kw cache log).prompt_cache = cache
    ∧ (fit cfg m t ti kw (fit cfg m t ti kw cache log).prompt_cache
        (fit cfg m t ti kw cache log).log).modelCalled = true
    ∧ (fit cfg m t ti kw (fit cfg m t ti kw cache log).prompt_cache
        (fit cfg m t ti kw cache log).log).cacheLookedUp = false
    ∧ (fit cfg m t ti kw (fit cfg m t ti kw cache log).prompt_cache
        (fit cfg m t ti kw cache log).log).cacheStored = false
    ∧ (fit cfg m t ti kw (fit cfg m t ti kw cache log).prompt_cache
        (fit cfg m t ti kw cache log).log).prompt_cache = cache := by
  obtain ⟨h1, h2, h3, h4⟩ :=
    fit_nocache_spec cfg m t ti kw cache log prompt vdict hc hg
  obtain ⟨g1, g2, g3, g4⟩ :=
    fit_nocache_spec cfg m t ti kw (fit cfg m t ti kw cache log).prompt_cache
      (fit cfg m t ti kw cache log).log prompt vdict hc hg
  refine ⟨h1, h2, h3, h4, g1, g2, g3, ?_⟩
  rw [g4, h4]

/-- Witness for C8: two consecutive live calls on an empty cache both
invoke the model and leave the cache empty. -/
theorem C8_no_cache_both_calls_invoke_model_witness :
    (fit cfgNoCache exModel exTemplate (Val.vstr "hi") [] cacheEmpty
        []).modelCalled = true
    ∧ (fit cfgNoCache exModel exTemplate (Val.vstr "hi")
        [] (fit cfgNoCache exModel exTemplate (Val.vstr "hi") [] cacheEmpty
          []).prompt_cache
        (fit cfgNoCache exModel exTemplate (Val.vstr "hi") [] cacheEmpty
          []).log).modelCalled = true :=
  ⟨(C8_no_cache_both_calls_invoke_model cfgNoCache exModel exTemplate
      (Val.vstr "hi") [] cacheEmpty [] "p" [("text_input", Val.vstr "hi")]
      rfl rfl).1,
    (C8_no_cache_both_calls_invoke_model cfgNoCache exModel exTemplate
      (Val.vstr "hi") [] cacheEmpty [] "p" [("text_input", Val.vstr "hi")]
      rfl rfl).2.2.2.2.1⟩

/-- Counterexample to C9: the claim says every template variable whose
value in the rendered prompt came from `default_variable_values` is
recorded in the log message as `None`.  For a variable present in both the
caller kwargs and the defaults, the rendered prompt uses the default (the
line 174 update), yet the log message records the caller value: here `x`
renders as the default `"b"` while the logged binding snapshot holds the
caller value `"a"`, not `None`. -/
theorem C9_counterexample :
    (fit cfgDefaultX exModel exTemplateX (Val.vstr "hi")
        [("x", Val.vstr "a")] cacheEmpty []).log
      = [{ template := "t", prompt := "b", text := "T", completion := "C",
            variable_binding :=
              [("text_input", Val.vstr "hi"), ("x", Val.vstr "a")] }] := by
  rfl

/-- C9 amended: the binding snapshot passed to the logger is built solely
from the caller kwargs before defaults are applied: every template variable
absent from the kwargs (after `text_input` is inserted) — whether filled
from the defaults or allowed-missing — is recorded as `None`, and every
variable present in the kwargs is recorded with the caller value, even when
the rendered prompt used the default instead; a successful live call
appends exactly this snapshot to the log. -/
theorem C9_amended_snapshot_prior_to_defaults (cfg : Prompter)
    (m : ModelClient) (t : Template) (ti : Val) (kw : Dict)
    (cache : PromptCache) (log : List Message) (prompt : String)
    (vdict : Dict)
    (henv : t.environment = true)
    (hg : generate_prompt cfg t ti kw = Except.ok (prompt, vdict)) :
    (∀ v, v ∈ t.variable_names →
        dictContains (kwargsWithText kw ti) v = false →
        dictGet vdict v = some Val.vnone)
    ∧ (∀ v w, v ∈ t.variable_names →
        dictGet (kwargsWithText kw ti) v = some w →
        dictGet vdict v = some w)
    ∧ (∀ outs, (fit cfg m t ti kw cache log).result = Except.ok outs →
        (fit cfg m t ti kw cache log).cacheHit = false →
        ∃ msg, (fit cfg m t ti kw cache log).log = log ++ [msg]
          ∧ msg.variable_binding = vdict) := by
  obtain ⟨_, hvd, _, _⟩ :=
    generate_prompt_ok_inv cfg t ti kw prompt vdict henv hg
  refine ⟨?_, ?_, ?_⟩
  · intro v hv hk
    rw [hvd, dictGet_variablesDict t.variable_names (kwargsWithText kw ti)
      v hv, (dictGet_eq_none_iff (kwargsWithText kw ti) v).mpr hk]
    rfl
  · intro v w hv hw
    rw [hvd, dictGet_variablesDict t.variable_names (kwargsWithText kw ti)
      v hv, hw]
    rfl
  · intro outs hout hhit
    by_cases hc : cfg.cache_prompt = true
    · by_cases ht : truthy (cache.get prompt).1 = true
      · rw [fit_eq_cache_hit cfg m t ti kw cache log prompt vdict hg hc
          ht] at hhit
        cases hhit
      · rw [fit_eq_cache_miss cfg m t ti kw cache log prompt vdict hg hc
          (by simpa using ht)] at hout ⊢
        obtain ⟨_, _, _, _, hok, _, _⟩ :=
          fit_live_spec cfg m t.name prompt vdict (cache.get prompt).2 log
            true
        exact hok outs hout
    · rw [fit_eq_nocache cfg m t ti kw cache log prompt vdict hg
        (by simpa using hc)] at hout ⊢
      obtain ⟨_, _, _, _, hok, _, _⟩ :=
        fit_live_spec cfg m t.name prompt vdict cache log false
      exact hok outs hout

/-- Witness for the amended C9: with `x` supplied by the caller and also
defaulted, the snapshot records the caller value; with `description`
supplied nowhere, the snapshot records `None`. -/
theorem C9_amended_snapshot_prior_to_defaults_witness :
    dictGet [("text_input", Val.vstr "hi"), ("x", Val.vstr "a")] "x"
      = some (Val.vstr "a") :=
  (C9_amended_snapshot_prior_to_defaults cfgDefaultX exModel exTemplateX
      (Val.vstr "hi") [("x", Val.vstr "a")] cacheEmpty [] "b"
      [("text_input", Val.vstr "hi"), ("x", Val.vstr "a")] rfl rfl).2.1
    "x" (Val.vstr "a") (by decide) (by decide)

/-- C10: with caching enabled, a present cached entry whose stored outputs
are falsy (the empty list) is treated as a miss: the model client is
invoked and the entry is overwritten with the freshly normalized
outputs. -/
theorem C10_falsy_entry_treated_as_miss (cfg : Prompter) (m : ModelClient)
    (t : Template) (ti : Val) (kw : Dict) (cache : PromptCache)
    (log : List Message) (prompt : String) (vdict : Dict)
    (response : List String)
    (hc : cfg.cache_prompt = true)
    (hg : generate_prompt cfg t ti kw = Except.ok (prompt, vdict))
    (hl : cache.lookup prompt = some [])
    (he : m.execute_with_retry [prompt] = Except.ok response)
    (hcap : 0 < cache.capacity) :
    (fit cfg m t ti kw cache log).modelCalled = true
    ∧ (fit cfg m t ti kw cache log).prompt_cache.lookup prompt
        = some (response.map
            (fun r => m.model_output r cfg.max_completion_length)) := by
  have hfst : (cache.get prompt).1 = some [] := by
    rw [PromptCache.get_fst]
    exact hl
  have ht : truthy (cache.get prompt).1 = false := by
    rw [hfst]
    rfl
  rw [fit_eq_cache_miss cfg m t ti kw cache log prompt vdict hg hc ht]
  have hcap2 : 0 < ((cache.get prompt).2).capacity := by
    rw [PromptCache.capacity_get]
    exact hcap
  cases ho : response.map
      (fun r => m.model_output r cfg.max_completion_length) with
  | nil =>
      rw [fit_live_eq_ok_nil cfg m t.name prompt vdict (cache.get prompt).2
        log true response he ho]
      refine ⟨rfl, ?_⟩
      rw [hc]
      simp only [if_pos rfl]
      exact PromptCache.lookup_add_self (cache.get prompt).2 prompt [] hcap2
  | cons o rest =>
      rw [fit_live_eq_ok_cons cfg m t.name prompt vdict (cache.get prompt).2
        log true response o rest he ho]
      refine ⟨rfl, ?_⟩
      rw [hc]
      simp only [if_pos rfl]
      exact PromptCache.lookup_add_self (cache.get prompt).2 prompt
        (o :: rest) hcap2

/-- Witness for C10: a falsy entry for `"p"` is overwritten with the fresh
output after a live call. -/
theorem C10_falsy_entry_treated_as_miss_witness :
    (fit cfgCache exModel exTemplate (Val.vstr "hi") [] cacheWithFalsy
        []).modelCalled = true
    ∧ (fit cfgCache exModel exTemplate (Val.vstr "hi") [] cacheWithFalsy
        []).prompt_cache.lookup "p" = some [exOutput] :=
  C10_falsy_entry_treated_as_miss cfgCache exModel exTemplate
    (Val.vstr "hi") [] cacheWithFalsy [] "p" [("text_input", Val.vstr "hi")]
    ["raw"] rfl rfl rfl rfl (by decide)
